import Mathlib

/-
Shallow embedding of the fitness-tracker script (src/input_data.py).

Modelling conventions:
* Python floats are modelled as exact rationals.  The numeric primitives
  np.exp and np.log10 are passed in as explicit function parameters of the
  definitions that use them, so every definition stays computable; theorems
  quantify over those parameters (adding bounds where a proof needs them).
* A call into a Python function is modelled as Except PyErr carrying the
  returned value; Except.error models a raised exception.  A function that
  can fall off the end of its branch structure returns an Option, where
  Option.none models Python returning the value None (which is a normal
  return, not an exception).
* print and input calls in the source affect no returned value and are
  dropped.
* Calendar dates are modelled as absolute day numbers (Int); the .days
  attribute of the difference of two datetimes is the difference of the day
  numbers at the day granularity used by the script.
* CSV rows arrive already parsed into typed fields (the spec treats the
  tabular read/write glue as an external collaborator).
-/

namespace FitnessTracker

/-- Kinds of Python exception that the modelled code can raise. -/
inductive PyErr where
  | valueError
  | nameError
  | typeError
  | assertionError
  | notImplementedError
deriving DecidableEq

/-- Result of a modelled Python call: a returned value or a raised exception. -/
abbrev PyResult (α : Type) := Except PyErr α

/-! ### Unit Converter (src/input_data.py lines 157-170) -/

/-- Embeds cm_to_inch: return cm / 2.54. -/
def cm_to_inch (cm : ℚ) : ℚ := cm / 2.54

/-- Embeds inch_to_cm: return inch * 2.54. -/
def inch_to_cm (inch : ℚ) : ℚ := inch * 2.54

/-- Embeds kg_to_lb: return kg * 2.20462. -/
def kg_to_lb (kg : ℚ) : ℚ := kg * 2.20462

/-- Embeds lb_to_kg: return lb / 2.20462. -/
def lb_to_kg (lb : ℚ) : ℚ := lb / 2.20462

/-! ### Quantizer (src/input_data.py lines 121-123) -/

/-- Python int() applied to a rational: truncation toward zero. -/
def pyInt (x : ℚ) : ℤ := if 0 ≤ x then ⌊x⌋ else ⌈x⌉

/-- Embeds round_to: correction = 0.5 if n >= 0 else -0.5;
return int(n / precision + correction) * precision. -/
def round_to (n p : ℚ) : ℚ :=
  let correction : ℚ := if 0 ≤ n then 0.5 else -0.5
  (pyInt (n / p + correction) : ℚ) * p

/-- Embeds the precision dict (src/input_data.py lines 70-77). -/
def precision (key : String) : Option ℚ :=
  if key = "bf" then some 0.001
  else if key = "bmr" then some 0.001
  else if key = "cm" then some 0.1
  else if key = "inch" then some 0.1
  else if key = "kg" then some 0.5
  else if key = "lb" then some 1
  else none

/-! ### BMR formulas (src/input_data.py lines 173-209) -/

/-- Embeds bmr_katch_mcardle: 370 + 21.6 * (weight * (1 - bf)).
Always returns a number (no gender branch). -/
def bmr_katch_mcardle (weight bf : ℚ) : ℚ :=
  370 + 21.6 * (weight * (1 - bf))

/-- Embeds bmr_revised_harris_benedict.  The if/elif chain has no else
branch, so an unsupported gender value falls off the end and the Python
function returns None. -/
def bmr_revised_harris_benedict (weight height age : ℚ) (gender : String) :
    PyResult (Option ℚ) :=
  if gender = "female" then
    .ok (some (447.593 + (9.247 * weight) + (3.098 * height) - (4.330 * age)))
  else if gender = "male" then
    .ok (some (88.362 + (13.397 * weight) + (4.799 * height) - (5.677 * age)))
  else .ok none

/-- Embeds bmr_mifflin_st_jeor; same fall-off-the-end behaviour. -/
def bmr_mifflin_st_jeor (weight height age : ℚ) (gender : String) :
    PyResult (Option ℚ) :=
  if gender = "female" then
    .ok (some ((9.99 * weight) + (6.25 * height) - (4.92 * age) - 161))
  else if gender = "male" then
    .ok (some ((9.99 * weight) + (6.25 * height) - (4.92 * age) + 5))
  else .ok none

/-- Embeds bmr_owen; same fall-off-the-end behaviour. -/
def bmr_owen (weight : ℚ) (gender : String) : PyResult (Option ℚ) :=
  if gender = "female" then .ok (some ((7.18 * weight) + 795))
  else if gender = "male" then .ok (some ((10.2 * weight) + 879))
  else .ok none

/-- Collects the values of a Python list in which None may occur: the list
of values when every element is a number, None otherwise. -/
def allSome : List (Option ℚ) → Option (List ℚ)
  | [] => some []
  | none :: _ => none
  | some v :: rest => (allSome rest).map (fun vs => v :: vs)

/-- Embeds np.mean applied to a Python list of returned values: if any
element is None the mean over the object array raises a TypeError,
otherwise it is the sum divided by the length. -/
def npMean (values : List (Option ℚ)) : PyResult ℚ :=
  match allSome values with
  | some vs => .ok (vs.sum / (vs.length : ℚ))
  | none => .error .typeError

/-- Embeds bmr (src/input_data.py lines 198-209): np.mean of the four
formulas evaluated on the keyword arguments, in the order of the bmr_funcs
list.  The print/input REPL lines in the source affect no returned value. -/
def bmr (weight height age : ℚ) (gender : String) (bf : ℚ) : PyResult ℚ :=
  match bmr_revised_harris_benedict weight height age gender with
  | .error e => .error e
  | .ok o2 =>
    match bmr_mifflin_st_jeor weight height age gender with
    | .error e => .error e
    | .ok o3 =>
      match bmr_owen weight gender with
      | .error e => .error e
      | .ok o4 => npMean [some (bmr_katch_mcardle weight bf), o2, o3, o4]

/-! ### Body-fat formulas (src/input_data.py lines 212-274)

In the source, each formula converts its length inputs with a multiple
assignment continued over two physical lines by a backslash.  The
continuation ends after the third converted value because that line ends in
a comma without a backslash, so the right-hand side is a 3-tuple and the
following indented line is a separate no-op expression statement.  Unpacking
the 3-tuple into the 4 or 5 target names raises a ValueError at run time
whenever the cm flag is true. -/

/-- Unpacking a Python tuple (given as a list) into five target names;
a length mismatch raises ValueError. -/
def unpack5 (xs : List ℚ) : PyResult (ℚ × ℚ × ℚ × ℚ × ℚ) :=
  match xs with
  | [a, b, c, d, e] => .ok (a, b, c, d, e)
  | _ => .error .valueError

/-- Unpacking a Python tuple (given as a list) into four target names;
a length mismatch raises ValueError. -/
def unpack4 (xs : List ℚ) : PyResult (ℚ × ℚ × ℚ × ℚ) :=
  match xs with
  | [a, b, c, d] => .ok (a, b, c, d)
  | _ => .error .valueError

/-- Embeds bf_dod (lines 212-225).  The cm branch assigns the 3-tuple
(cm_to_inch waist, cm_to_inch naval, cm_to_inch hips) to the five targets
waist, naval, hips, neck, height.  The local name bf is only assigned in the
two gender branches; for any other gender the final return reads an unbound
local, raising a NameError. -/
def bf_dod (log10 : ℚ → ℚ) (waist naval hips neck height : ℚ)
    (gender : String) (cm : Bool) : PyResult (Option ℚ) :=
  match (if cm then
          unpack5 [cm_to_inch waist, cm_to_inch naval, cm_to_inch hips]
        else
          .ok (waist, naval, hips, neck, height) : PyResult (ℚ × ℚ × ℚ × ℚ × ℚ)) with
  | .error e => .error e
  | .ok (waist, naval, hips, neck, height) =>
    match (if gender = "female" then
            some (163.205 * log10 (waist + hips - neck) -
              97.684 * log10 height - 78.387)
          else if gender = "male" then
            some (86.010 * log10 (naval - neck) -
              70.041 * log10 height + 36.76)
          else none : Option ℚ) with
    | some bf => .ok (some (bf / 100))
    | none => .error .nameError

/-- Embeds bf_cb (lines 228-245); same broken 3-tuple unpack into the four
targets hips, thigh, calf, wrist, and the same unbound-local NameError for
an unsupported gender. -/
def bf_cb (hips thigh calf wrist : ℚ) (gender : String) (age : ℚ)
    (cm : Bool) : PyResult (Option ℚ) :=
  match (if cm then
          unpack4 [cm_to_inch hips, cm_to_inch thigh, cm_to_inch calf]
        else
          .ok (hips, thigh, calf, wrist) : PyResult (ℚ × ℚ × ℚ × ℚ)) with
  | .error e => .error e
  | .ok (hips, thigh, calf, wrist) =>
    match (if gender = "female" then
            some (if age ≤ 30 then hips + 0.8 * thigh - 2 * calf - wrist
                  else hips + thigh - 2 * calf - wrist)
          else if gender = "male" then
            some (if age ≤ 30 then 0.5 * hips + thigh - 3 * calf - wrist
                  else 0.5 * hips + thigh - 2.7 * calf - wrist)
          else none : Option ℚ) with
    | some bf => .ok (some (bf / 100))
    | none => .error .nameError

/-- Embeds bf_mod_ymca (lines 248-261); weight is converted first when the
kg flag is set, then the same broken 3-tuple unpack into the four targets
wrist, waist, hips, forearm.  Both gender branches return directly; an
unsupported gender falls off the end and returns None. -/
def bf_mod_ymca (weight wrist waist hips forearm : ℚ) (gender : String)
    (kg : Bool) (cm : Bool) : PyResult (Option ℚ) :=
  let weight := if kg then kg_to_lb weight else weight
  match (if cm then
          unpack4 [cm_to_inch wrist, cm_to_inch waist, cm_to_inch hips]
        else
          .ok (wrist, waist, hips, forearm) : PyResult (ℚ × ℚ × ℚ × ℚ)) with
  | .error e => .error e
  | .ok (wrist, waist, hips, forearm) =>
    if gender = "female" then
      .ok (some ((0.268 * weight - 0.318 * wrist + 0.157 * waist +
        0.245 * hips - 0.434 * forearm - 8.987) / weight))
    else if gender = "male" then
      .ok (some ((-0.082 * weight + 4.15 * wrist - 94.42) / weight))
    else
      .ok none

/-- Keyword arguments the script passes to the bf ensemble (lines 453-467). -/
structure BFInputs where
  height : ℚ
  weight : ℚ
  age : ℚ
  gender : String
  waist : ℚ
  naval : ℚ
  hips : ℚ
  thigh : ℚ
  neck : ℚ
  biceps : ℚ
  forearm : ℚ
  wrist : ℚ
  calf : ℚ
deriving DecidableEq

/-- Embeds bf (lines 264-274): np.mean of the three formulas evaluated on
the keyword arguments; the cm and kg flags default to true and are not
overridden by the script.  The list comprehension evaluates bf_dod, bf_cb,
bf_mod_ymca in order, so the first raised exception propagates. -/
def bf (log10 : ℚ → ℚ) (i : BFInputs) (cm : Bool := true)
    (kg : Bool := true) : PyResult ℚ :=
  match bf_dod log10 i.waist i.naval i.hips i.neck i.height i.gender cm with
  | .error e => .error e
  | .ok o1 =>
    match bf_cb i.hips i.thigh i.calf i.wrist i.gender i.age cm with
    | .error e => .error e
    | .ok o2 =>
      match bf_mod_ymca i.weight i.wrist i.waist i.hips i.forearm i.gender kg cm with
      | .error e => .error e
      | .ok o3 => npMean [o1, o2, o3]

/-! ### One-rep max (src/input_data.py lines 277-306) -/

/-- Embeds one_rep_max: convert w to pounds when unit is kg, keep it when
unit is lb, raise NotImplementedError otherwise; then return
lb_to_kg(100 * w / (48.8 + 53.8 * exp(-0.075 * r))). -/
def one_rep_max (exp : ℚ → ℚ) (w r : ℚ) (unit : String) : PyResult ℚ :=
  match (if unit = "kg" then .ok (kg_to_lb w)
        else if unit = "lb" then .ok w
        else .error .notImplementedError : PyResult ℚ) with
  | .error e => .error e
  | .ok w => .ok (lb_to_kg (100 * w / (48.8 + 53.8 * exp (-0.075 * r))))

/-! ### Script fragments (src/input_data.py, function script) -/

/-- Embeds the age computation (lines 405-407): the age field is
(datetime.now() - datetime(dob)).days / 365, a function of the current day
and the day of birth. -/
def script_age (todayDay dobDay : ℤ) : ℚ := ((todayDay - dobDay : ℤ) : ℚ) / 365

/-- The age field of an entry assembled for entry date entryDay at a session
whose current day is todayDay: the source uses datetime.now(), so entryDay
does not occur in the computation. -/
def entryAgeField (todayDay entryDay dobDay : ℤ) : ℚ := script_age todayDay dobDay

/-- Embeds the weightlifting storage fragment (lines 488-497): orm is the
result of one_rep_max; if the selected unit is lb the script applies
lb_to_kg to orm a second time; the stored value is round_to(orm, 0.5),
0.5 being the kg precision. -/
def storedLift (exp : ℚ → ℚ) (weight reps : ℚ) (unit : String) : PyResult ℚ :=
  match one_rep_max exp weight reps unit with
  | .error e => .error e
  | .ok orm =>
    let orm := if unit = "lb" then lb_to_kg orm else orm
    .ok (round_to orm 0.5)

/-! ### Persisted header (src/input_data.py lines 34-56 and 537-555) -/

/-- Embeds the measurements catalog. -/
def measurements : List String := [
  "waist size at narrowest point",
  "waist size at naval",
  "hip size at widest point",
  "thigh size at widest point",
  "neck at narrowest point",
  "biceps at widest point",
  "forearm at widest point",
  "wrist at narrowest point",
  "calf at widest point"]

/-- Embeds the vitals catalog. -/
def vitals : List String := ["resting heart rate"]

/-- Embeds the weightlifting catalog. -/
def weightlifting : List String :=
  ["squat", "bench press", "row", "overhead press", "deadlift"]

/-- Embeds the fieldnames list built at lines 539-555, in the exact order of
the += statements. -/
def fieldnames : List String :=
  ["date"] ++ ["gender"] ++ ["height"] ++ ["date of birth"] ++ ["age"] ++
  ["weight"] ++ ["weight measurement time"] ++ ["bmr"] ++ ["bf"] ++
  measurements ++ measurements.map (fun m => m ++ " measurement time") ++
  weightlifting ++ weightlifting.map (fun m => m ++ " measurement time") ++
  vitals ++ vitals.map (fun m => m ++ " measurement time") ++
  ["heart-rate lifetime"] ++ ["heart-rate lifetime measurement time"]

/-- The column order as the specification words it: each measurement, lift
and vitals column immediately followed by its measurement-time column.
This definition follows the words of the spec, for comparison with
fieldnames, which is embedded from the source. -/
def specFieldnames : List String :=
  ["date", "gender", "height", "date of birth", "age", "weight",
   "weight measurement time", "bmr", "bf"] ++
  (measurements.map (fun m => [m, m ++ " measurement time"])).flatten ++
  (weightlifting.map (fun m => [m, m ++ " measurement time"])).flatten ++
  (vitals.map (fun m => [m, m ++ " measurement time"])).flatten ++
  ["heart-rate lifetime", "heart-rate lifetime measurement time"]

/-! ### Record store load (src/input_data.py lines 336-362) -/

/-- One parsed CSV row: the three constant subject fields plus the date key.
height is the parsed float of the height column. -/
structure Row where
  date : String
  gender : String
  height : ℚ
  dob : String
deriving DecidableEq

/-- The loop state of the load: the database dict keyed by date and the
running values of the three constant fields (None before the first row). -/
structure LoadState where
  db : List (String × Row)
  gender : Option String
  height : Option ℚ
  dob : Option String
deriving DecidableEq

/-- Python dict insertion: overwrite in place if the key exists, else
append. -/
def dictInsert (db : List (String × Row)) (k : String) (v : Row) :
    List (String × Row) :=
  if db.any (fun p => p.1 = k) then
    db.map (fun p => if p.1 = k then (k, v) else p)
  else
    db ++ [(k, v)]

/-- Python truthiness of the running gender / dob value: None and the empty
string are falsy. -/
def truthyStr : Option String → Bool
  | none => false
  | some s => s ≠ ""

/-- Python truthiness of the running height value: None and 0.0 are falsy. -/
def truthyRat : Option ℚ → Bool
  | none => false
  | some q => q ≠ 0

/-- One constant-field step of the loop: when the running value is truthy,
assert that it equals the value in the row (a mismatch raises
AssertionError); otherwise establish the running value from the row. -/
def checkConst {α : Type} [DecidableEq α] (truthyRunning : Bool)
    (running : Option α) (new : α) : PyResult (Option α) :=
  match truthyRunning with
  | false => .ok (some new)
  | true => if running = some new then .ok running else .error .assertionError

/-- Embeds one iteration of the load loop (lines 344-360): store the row in
the dict under its date, then run the three constant-field checks for
gender, height and date of birth, in that order. -/
def replayRow (st : LoadState) (row : Row) : PyResult LoadState :=
  let db := dictInsert st.db row.date row
  match checkConst (truthyStr st.gender) st.gender row.gender with
  | .error e => .error e
  | .ok gender =>
    match checkConst (truthyRat st.height) st.height row.height with
    | .error e => .error e
    | .ok height =>
      match checkConst (truthyStr st.dob) st.dob row.dob with
      | .error e => .error e
      | .ok dob => .ok { db := db, gender := gender, height := height, dob := dob }

/-- The state before the first row: empty dict, all running values None. -/
def initialLoadState : LoadState := ⟨[], none, none, none⟩

/-- Replays the remaining rows of the file in order; the first raised
exception aborts the loop. -/
def replayAll (st : LoadState) : List Row → PyResult LoadState
  | [] => .ok st
  | row :: rest =>
    match replayRow st row with
    | .error e => .error e
    | .ok st2 => replayAll st2 rest

/-- Embeds the whole load loop (lines 336-362). -/
def loadRows (rows : List Row) : PyResult LoadState :=
  replayAll initialLoadState rows

/-! ## Helper lemmas about the quantizer -/

lemma floor_half : ⌊(0.5 : ℚ)⌋ = 0 := by
  rw [Int.floor_eq_zero_iff, Set.mem_Ico]
  norm_num

lemma ceil_neg_half : ⌈(-0.5 : ℚ)⌉ = 0 := by
  rw [Int.ceil_eq_zero_iff, Set.mem_Ioc]
  norm_num

lemma round_to_eq_pyInt_mul (x p : ℚ) :
    round_to x p = (pyInt (x / p + if 0 ≤ x then (0.5 : ℚ) else -0.5) : ℚ) * p := rfl

lemma round_to_of_nonneg (x p : ℚ) (hx : 0 ≤ x) (hp : 0 < p) :
    round_to x p = (⌊x / p + 0.5⌋ : ℚ) * p := by
  have h1 : (0 : ℚ) ≤ x / p := div_nonneg hx hp.le
  have harg : (0 : ℚ) ≤ x / p + 0.5 := by linarith
  rw [round_to_eq_pyInt_mul, if_pos hx]
  unfold pyInt
  rw [if_pos harg]

lemma round_to_of_neg (x p : ℚ) (hx : x < 0) (hp : 0 < p) :
    round_to x p = (⌈x / p - 0.5⌉ : ℚ) * p := by
  have h1 : x / p < 0 := div_neg_of_neg_of_pos hx hp
  have harg : ¬ (0 : ℚ) ≤ x / p + -0.5 := by
    push_neg
    linarith
  rw [round_to_eq_pyInt_mul, if_neg (not_le.mpr hx)]
  unfold pyInt
  rw [if_neg harg, show x / p - (0.5 : ℚ) = x / p + -0.5 from by ring]

lemma round_to_int_mul (k : ℤ) (p : ℚ) (hp : 0 < p) :
    round_to ((k : ℚ) * p) p = (k : ℚ) * p := by
  have hdiv : (k : ℚ) * p / p = (k : ℚ) := by
    field_simp
  rcases le_or_lt 0 k with hk | hk
  · have hk2 : (0 : ℚ) ≤ (k : ℚ) := by exact_mod_cast hk
    have hx : (0 : ℚ) ≤ (k : ℚ) * p := mul_nonneg hk2 hp.le
    rw [round_to_of_nonneg _ p hx hp, hdiv, Int.floor_int_add k (0.5 : ℚ),
      floor_half, add_zero]
  · have hk2 : (k : ℚ) < 0 := by exact_mod_cast hk
    have hx : (k : ℚ) * p < 0 := mul_neg_of_neg_of_pos hk2 hp
    rw [round_to_of_neg _ p hx hp, hdiv,
      show (k : ℚ) - 0.5 = -0.5 + (k : ℚ) from by ring,
      Int.ceil_add_int (-0.5 : ℚ) k, ceil_neg_half, zero_add]

lemma round_to_idem (x p : ℚ) (hp : 0 < p) :
    round_to (round_to x p) p = round_to x p := by
  rw [round_to_eq_pyInt_mul x p, round_to_int_mul _ p hp]

lemma pyInt_le_add_one (y : ℚ) : (pyInt y : ℚ) ≤ y + 1 := by
  unfold pyInt
  split
  · have h := Int.floor_le y
    linarith
  · have h := Int.ceil_lt_add_one y
    linarith

lemma sub_one_le_pyInt (y : ℚ) : y - 1 ≤ (pyInt y : ℚ) := by
  unfold pyInt
  split
  · have h := Int.lt_floor_add_one y
    linarith
  · have h := Int.le_ceil y
    linarith

lemma round_to_le (x p : ℚ) (hp : 0 < p) : round_to x p ≤ x + 1.5 * p := by
  rw [round_to_eq_pyInt_mul]
  have hxp : x / p * p = x := div_mul_cancel₀ x hp.ne'
  rcases le_or_lt 0 x with hx | hx
  · rw [if_pos hx]
    have h := pyInt_le_add_one (x / p + 0.5)
    have h2 := mul_le_mul_of_nonneg_right h hp.le
    nlinarith [h2]
  · rw [if_neg (not_le.mpr hx)]
    have h := pyInt_le_add_one (x / p + -0.5)
    have h2 := mul_le_mul_of_nonneg_right h hp.le
    nlinarith [h2]

lemma le_round_to (x p : ℚ) (hp : 0 < p) : x - 1.5 * p ≤ round_to x p := by
  rw [round_to_eq_pyInt_mul]
  have hxp : x / p * p = x := div_mul_cancel₀ x hp.ne'
  rcases le_or_lt 0 x with hx | hx
  · rw [if_pos hx]
    have h := sub_one_le_pyInt (x / p + 0.5)
    have h2 := mul_le_mul_of_nonneg_right h hp.le
    nlinarith [h2]
  · rw [if_neg (not_le.mpr hx)]
    have h := sub_one_le_pyInt (x / p + -0.5)
    have h2 := mul_le_mul_of_nonneg_right h hp.le
    nlinarith [h2]

/-- With the exponential primitive between 0.9 and 1, the doubly-converted
stored lift value at weight 1000 differs from the singly-converted one. -/
lemma lift_gap (E : ℚ) (h1 : 0.9 ≤ E) (h2 : E ≤ 1) :
    round_to (lb_to_kg (100 * 1000 / (48.8 + 53.8 * E)) / 2.20462) 0.5 ≠
      round_to (lb_to_kg (100 * 1000 / (48.8 + 53.8 * E))) 0.5 := by
  have hD0 : (0 : ℚ) < 48.8 + 53.8 * E := by linarith
  have hD1 : (97.22 : ℚ) ≤ 48.8 + 53.8 * E := by linarith
  have hD2 : 48.8 + 53.8 * E ≤ 102.6 := by linarith
  have hX0 : (0 : ℚ) < 100 * 1000 / (48.8 + 53.8 * E) := div_pos (by norm_num) hD0
  have hXD : 100 * 1000 / (48.8 + 53.8 * E) * (48.8 + 53.8 * E) = 100 * 1000 :=
    div_mul_cancel₀ _ hD0.ne'
  generalize hXdef : 100 * 1000 / (48.8 + 53.8 * E) = X at hX0 hXD ⊢
  have hX1 : X ≤ 1029 := by
    have hm := mul_le_mul_of_nonneg_left hD1 hX0.le
    linarith
  have hX2 : (974 : ℚ) ≤ X := by
    have hm := mul_le_mul_of_nonneg_left hD2 hX0.le
    linarith
  have hlb : lb_to_kg X = X / 2.20462 := rfl
  have hA1 : lb_to_kg X ≤ 467 := by
    rw [hlb, div_le_iff₀ (by norm_num : (0 : ℚ) < 2.20462)]
    linarith
  have hA2 : (441 : ℚ) ≤ lb_to_kg X := by
    rw [hlb, le_div_iff₀ (by norm_num : (0 : ℚ) < 2.20462)]
    linarith
  have hB1 : lb_to_kg X / 2.20462 ≤ 212 := by
    rw [div_le_iff₀ (by norm_num : (0 : ℚ) < 2.20462)]
    linarith
  have hB2 : (200 : ℚ) ≤ lb_to_kg X / 2.20462 := by
    rw [le_div_iff₀ (by norm_num : (0 : ℚ) < 2.20462)]
    linarith
  have b1 := round_to_le (lb_to_kg X / 2.20462) 0.5 (by norm_num)
  have b2 := le_round_to (lb_to_kg X) 0.5 (by norm_num)
  exact ne_of_lt (by linarith)

/-- A constant-field check against a row that carries the running value
itself succeeds whatever the truthiness of the running value. -/
lemma checkConst_self {α : Type} [DecidableEq α] (t : Bool) (x : α) :
    checkConst t (some x) x = .ok (some x) := by
  cases t
  · rfl
  · simp [checkConst]

/-- Replaying a row that differs from the truthy running constants in
gender, height or date of birth raises AssertionError. -/
lemma replayRow_mismatch (g : String) (hgt : ℚ) (d : String)
    (hg : g ≠ "") (hh : hgt ≠ 0) (hd : d ≠ "")
    (db : List (String × Row)) (r : Row)
    (hdiff : r.gender ≠ g ∨ r.height ≠ hgt ∨ r.dob ≠ d) :
    replayRow ⟨db, some g, some hgt, some d⟩ r = .error .assertionError := by
  have t1 : truthyStr (some g) = true := by simp [truthyStr, hg]
  have t2 : truthyRat (some hgt) = true := by simp [truthyRat, hh]
  have t3 : truthyStr (some d) = true := by simp [truthyStr, hd]
  by_cases e1 : (some g : Option String) = some r.gender
  · by_cases e2 : (some hgt : Option ℚ) = some r.height
    · by_cases e3 : (some d : Option String) = some r.dob
      · exfalso
        rcases hdiff with hx | hx | hx
        · exact hx (Option.some.inj e1).symm
        · exact hx (Option.some.inj e2).symm
        · exact hx (Option.some.inj e3).symm
      · simp only [replayRow, checkConst, t1, t2, t3,
          if_pos e1, if_pos e2, if_neg e3]
    · simp only [replayRow, checkConst, t1, t2, t3, if_pos e1, if_neg e2]
  · simp only [replayRow, checkConst, t1, t2, t3, if_neg e1]

/-- Replaying a row whose constants agree with the running values keeps the
running values and only inserts the row into the dict. -/
lemma replayRow_match (g : String) (hgt : ℚ) (d : String)
    (db : List (String × Row)) (r : Row)
    (e1 : r.gender = g) (e2 : r.height = hgt) (e3 : r.dob = d) :
    replayRow ⟨db, some g, some hgt, some d⟩ r =
      .ok ⟨dictInsert db r.date r, some g, some hgt, some d⟩ := by
  subst e1
  subst e2
  subst e3
  simp only [replayRow, checkConst_self]

/-- From a state whose truthy running constants are established, replaying
any row list containing a row that differs in gender, height or date of
birth raises AssertionError, whatever the dict contents. -/
lemma replayAll_mismatch (g : String) (hgt : ℚ) (d : String)
    (hg : g ≠ "") (hh : hgt ≠ 0) (hd : d ≠ "") (rows : List Row) :
    ∀ db : List (String × Row),
      (∃ r ∈ rows, r.gender ≠ g ∨ r.height ≠ hgt ∨ r.dob ≠ d) →
      replayAll ⟨db, some g, some hgt, some d⟩ rows = .error .assertionError := by
  induction rows with
  | nil =>
    intro db hex
    simp at hex
  | cons r rows ih =>
    intro db hex
    by_cases hr : r.gender ≠ g ∨ r.height ≠ hgt ∨ r.dob ≠ d
    · simp only [replayAll, replayRow_mismatch g hgt d hg hh hd db r hr]
    · push_neg at hr
      obtain ⟨e1, e2, e3⟩ := hr
      simp only [replayAll, replayRow_match g hgt d db r e1 e2 e3]
      apply ih
      rcases hex with ⟨rr, hmem, hrr⟩
      rcases List.mem_cons.mp hmem with rfl | hmem2
      · rcases hrr with hx | hx | hx
        · exact absurd e1 hx
        · exact absurd e2 hx
        · exact absurd e3 hx
      · exact ⟨rr, hmem2, hrr⟩

/-- The np.mean of four numbers is their arithmetic mean. -/
lemma npMean_four (a b c d : ℚ) :
    npMean [some a, some b, some c, some d] = .ok ((a + b + c + d) / 4) := by
  have h : npMean [some a, some b, some c, some d] =
      .ok ((a + (b + (c + (d + 0)))) / ((4 : ℕ) : ℚ)) := rfl
  rw [h]
  congr 1
  push_cast
  ring

/-! ## Claim theorems -/

/-- Claim C1, counterexample: the persisted age field is computed from the
current day (datetime.now()), not from the date of the entry, so for a
backdated entry (current day 1000, entry day 635, day of birth 0) the
persisted age differs from the value the claim derives from the saved row. -/
theorem claim1_age_counterexample :
    entryAgeField 1000 635 0 ≠ ((635 - 0 : ℤ) : ℚ) / 365 := by
  intro h
  norm_num [entryAgeField, script_age] at h

/-- Claim C1, amended: the persisted age equals the calendar-day difference
between the current day at entry creation and the day of birth, divided by
365; it agrees with the value derived from the date of the entry exactly
when the entry is dated the day it is created. -/
theorem claim1_age_amended (today entryDay dob : ℤ) :
    entryAgeField today entryDay dob = ((today - dob : ℤ) : ℚ) / 365 ∧
    (entryDay = today →
      entryAgeField today entryDay dob = ((entryDay - dob : ℤ) : ℚ) / 365) := by
  refine ⟨rfl, fun h => ?_⟩
  subst h
  rfl

/-- Witness for claim C1 at a concrete entry dated on its creation day. -/
theorem claim1_age_witness :
    entryAgeField 1000 1000 0 = ((1000 - 0 : ℤ) : ℚ) / 365 :=
  (claim1_age_amended 1000 1000 0).2 rfl

/-- Claim C2: with the metric flag true, every invocation of the body-fat
ensemble, and each of the three component formulas, raises ValueError
at the broken tuple-unpacking line instead of converting internally and
returning a value. -/
theorem claim2_bf_metric_raises :
    (∀ (log10 : ℚ → ℚ) (i : BFInputs) (kg : Bool),
      bf log10 i true kg = .error .valueError) ∧
    (∀ (log10 : ℚ → ℚ) (waist naval hips neck height : ℚ) (gender : String),
      bf_dod log10 waist naval hips neck height gender true = .error .valueError) ∧
    (∀ (hips thigh calf wrist : ℚ) (gender : String) (age : ℚ),
      bf_cb hips thigh calf wrist gender age true = .error .valueError) ∧
    (∀ (weight wrist waist hips forearm : ℚ) (gender : String) (kg : Bool),
      bf_mod_ymca weight wrist waist hips forearm gender kg true = .error .valueError) :=
  ⟨fun _ _ _ => rfl, fun _ _ _ _ _ _ _ => rfl,
   fun _ _ _ _ _ _ => rfl, fun _ _ _ _ _ _ _ => rfl⟩

/-- Claim C3: at weight 70, height 175, age 30, gender male, bf 0.15 the
four BMR component formulas take their literal closed-form values, and for
every input with a supported gender the ensemble returns exactly the
unweighted arithmetic mean of the four formula outputs. -/
theorem claim3_bmr_ensemble :
    bmr_katch_mcardle 70 0.15 = 1655.2 ∧
    bmr_revised_harris_benedict 70 175 30 "male" = .ok (some 1695.667) ∧
    bmr_mifflin_st_jeor 70 175 30 "male" = .ok (some 1650.45) ∧
    bmr_owen 70 "male" = .ok (some 1593) ∧
    ∀ (weight height age bfv : ℚ) (gender : String),
      gender = "male" ∨ gender = "female" →
      ∃ v2 v3 v4 : ℚ,
        bmr_revised_harris_benedict weight height age gender = .ok (some v2) ∧
        bmr_mifflin_st_jeor weight height age gender = .ok (some v3) ∧
        bmr_owen weight gender = .ok (some v4) ∧
        bmr weight height age gender bfv =
          .ok ((bmr_katch_mcardle weight bfv + v2 + v3 + v4) / 4) := by
  have hmf : ¬ ("male" : String) = "female" := by decide
  refine ⟨by norm_num [bmr_katch_mcardle],
    by norm_num [bmr_revised_harris_benedict, hmf],
    by norm_num [bmr_mifflin_st_jeor, hmf],
    by norm_num [bmr_owen, hmf], ?_⟩
  rintro weight height age bfv gender (rfl | rfl)
  · exact ⟨_, _, _, rfl, rfl, rfl, npMean_four _ _ _ _⟩
  · exact ⟨_, _, _, rfl, rfl, rfl, npMean_four _ _ _ _⟩

/-- Witness for claim C3 at the concrete male test point. -/
theorem claim3_bmr_witness :
    ("male" = "male" ∨ "male" = "female") ∧
    ∃ v2 v3 v4 : ℚ,
      bmr_revised_harris_benedict 70 175 30 "male" = .ok (some v2) ∧
      bmr_mifflin_st_jeor 70 175 30 "male" = .ok (some v3) ∧
      bmr_owen 70 "male" = .ok (some v4) ∧
      bmr 70 175 30 "male" 0.15 =
        .ok ((bmr_katch_mcardle 70 0.15 + v2 + v3 + v4) / 4) :=
  ⟨Or.inl rfl, claim3_bmr_ensemble.2.2.2.2 70 175 30 0.15 "male" (Or.inl rfl)⟩

/-- Claim C4, counterexample: the gender-branched revised Harris-Benedict
formula does not raise on an unsupported gender; it returns None. -/
theorem claim4_gender_counterexample :
    bmr_revised_harris_benedict 70 175 30 "other" = .ok none ∧
    ∀ e : PyErr, bmr_revised_harris_benedict 70 175 30 "other" ≠ .error e := by
  refine ⟨rfl, fun e h => ?_⟩
  rw [show bmr_revised_harris_benedict 70 175 30 "other" = .ok none from rfl] at h
  exact Except.noConfusion h

/-- Claim C4, amended: one_rep_max raises NotImplementedError on a unit
outside kg and lb, but the gender-branched BMR formulas return None (not an
exception) on a gender outside male and female. -/
theorem claim4_domain_amended :
    (∀ (weight height age : ℚ) (gender : String),
      gender ≠ "male" → gender ≠ "female" →
      bmr_revised_harris_benedict weight height age gender = .ok none ∧
      bmr_mifflin_st_jeor weight height age gender = .ok none ∧
      bmr_owen weight gender = .ok none) ∧
    (∀ (exp : ℚ → ℚ) (w r : ℚ) (unit : String),
      unit ≠ "kg" → unit ≠ "lb" →
      one_rep_max exp w r unit = .error .notImplementedError) := by
  constructor
  · intro weight height age gender hm hf
    refine ⟨?_, ?_, ?_⟩ <;>
      simp [bmr_revised_harris_benedict, bmr_mifflin_st_jeor, bmr_owen, hm, hf]
  · intro exp w r unit hk hl
    simp [one_rep_max, hk, hl]

/-- Witness for claim C4 at concrete unsupported tokens. -/
theorem claim4_domain_witness :
    (bmr_revised_harris_benedict 70 175 30 "unknown" = .ok none ∧
     bmr_mifflin_st_jeor 70 175 30 "unknown" = .ok none ∧
     bmr_owen 70 "unknown" = .ok none) ∧
    one_rep_max (fun x => x) 10 5 "stone" = .error .notImplementedError :=
  ⟨claim4_domain_amended.1 70 175 30 "unknown" (by decide) (by decide),
   claim4_domain_amended.2 (fun x => x) 10 5 "stone" (by decide) (by decide)⟩

/-- Claim C5: for a unit in kg or lb, one_rep_max returns
lb_to_kg(100 * w_lb / (48.8 + 53.8 * exp(-0.075 * r))) where w_lb is
kg_to_lb w for kg input and w itself for lb input. -/
theorem claim5_one_rep_max_formula (exp : ℚ → ℚ) (w r : ℚ) (unit : String)
    (h : unit = "kg" ∨ unit = "lb") :
    one_rep_max exp w r unit =
      .ok (lb_to_kg (100 * (if unit = "kg" then kg_to_lb w else w) /
        (48.8 + 53.8 * exp (-0.075 * r)))) := by
  rcases h with h | h <;> subst h <;> rfl

/-- Witness for claim C5 at weight 100, reps 1, unit kg. -/
theorem claim5_one_rep_max_witness :
    (("kg" : String) = "kg" ∨ ("kg" : String) = "lb") ∧
    one_rep_max (fun x => x) 100 1 "kg" =
      .ok (lb_to_kg (100 * (if ("kg" : String) = "kg" then kg_to_lb 100 else 100) /
        (48.8 + 53.8 * ((fun x : ℚ => x) (-0.075 * 1))))) :=
  ⟨Or.inl rfl, claim5_one_rep_max_formula (fun x => x) 100 1 "kg" (Or.inl rfl)⟩

/-- Claim C6, counterexample: the persisted header is not interleaved as the
spec words it; at index 10 the source header carries the second measurement
column while the spec order carries the measurement-time column of the
first. -/
theorem claim6_header_counterexample :
    specFieldnames ≠ fieldnames ∧
    fieldnames[10]? = some "waist size at naval" ∧
    specFieldnames[10]? = some "waist size at narrowest point measurement time" := by
  refine ⟨fun h => ?_, rfl, rfl⟩
  have h10 : specFieldnames[10]? = fieldnames[10]? := by rw [h]
  rw [show specFieldnames[10]? = some "waist size at narrowest point measurement time"
      from rfl,
    show fieldnames[10]? = some "waist size at naval" from rfl] at h10
  exact absurd h10 (by decide)

/-- Claim C6, amended: the header order is the nine fixed columns, then the
nine measurement columns as a block, then their nine time columns as a
block, then the five lift columns, then their five time columns, then the
vitals column, its time column, and the two heart-rate lifetime columns. -/
theorem claim6_header_amended :
    fieldnames = [
      "date", "gender", "height", "date of birth", "age", "weight",
      "weight measurement time", "bmr", "bf",
      "waist size at narrowest point", "waist size at naval",
      "hip size at widest point", "thigh size at widest point",
      "neck at narrowest point", "biceps at widest point",
      "forearm at widest point", "wrist at narrowest point",
      "calf at widest point",
      "waist size at narrowest point measurement time",
      "waist size at naval measurement time",
      "hip size at widest point measurement time",
      "thigh size at widest point measurement time",
      "neck at narrowest point measurement time",
      "biceps at widest point measurement time",
      "forearm at widest point measurement time",
      "wrist at narrowest point measurement time",
      "calf at widest point measurement time",
      "squat", "bench press", "row", "overhead press", "deadlift",
      "squat measurement time", "bench press measurement time",
      "row measurement time", "overhead press measurement time",
      "deadlift measurement time",
      "resting heart rate", "resting heart rate measurement time",
      "heart-rate lifetime", "heart-rate lifetime measurement time"] := rfl

/-- Claim C7, counterexample: a file whose first row carries an empty
gender and whose second row carries gender male holds two rows with
differing gender, yet the load succeeds, because the running value
established by the first row is falsy and is silently replaced. -/
theorem claim7_load_counterexample :
    (Row.mk "2020-1-1" "" 175 "1990-1-1").gender ≠
      (Row.mk "2020-1-2" "male" 175 "1990-1-1").gender ∧
    (loadRows [Row.mk "2020-1-1" "" 175 "1990-1-1",
               Row.mk "2020-1-2" "male" 175 "1990-1-1"]).toOption.isSome = true := by
  constructor
  · decide
  · decide

/-- Claim C7, amended: when the first row of the file establishes truthy
constant fields (nonempty gender, nonzero height, nonempty date of birth),
a row at any later position that differs in gender, height or date of birth
makes the load raise AssertionError; it never silently picks one of the
conflicting values. -/
theorem claim7_load_mismatch (r1 : Row) (rest : List Row)
    (hg : r1.gender ≠ "") (hh : r1.height ≠ 0) (hd : r1.dob ≠ "")
    (hdiff : ∃ r ∈ rest,
      r.gender ≠ r1.gender ∨ r.height ≠ r1.height ∨ r.dob ≠ r1.dob) :
    loadRows (r1 :: rest) = .error .assertionError := by
  have hstep1 : replayRow initialLoadState r1 =
      .ok ⟨[(r1.date, r1)], some r1.gender, some r1.height, some r1.dob⟩ := rfl
  simp only [loadRows, replayAll, hstep1]
  exact replayAll_mismatch r1.gender r1.height r1.dob hg hh hd rest _ hdiff

/-- Witness for claim C7 with a concrete three-row file whose second row
matches the first and whose third row differs in gender. -/
theorem claim7_load_witness :
    loadRows [Row.mk "2020-1-1" "male" 175 "1990-1-1",
              Row.mk "2020-1-2" "male" 175 "1990-1-1",
              Row.mk "2020-1-3" "female" 175 "1990-1-1"] =
      .error .assertionError :=
  claim7_load_mismatch _ _ (by decide) (by decide) (by decide)
    ⟨Row.mk "2020-1-3" "female" 175 "1990-1-1", by decide, Or.inl (by decide)⟩

/-- Claim C9: for each supported precision (0.001 for bf and bmr, 0.1 for
centimeters, 0.5 for kilograms), round_to is idempotent and implements
round-half-away-from-zero on the grid of that spacing: floor of
value/precision + 0.5 for non-negative values, ceiling of
value/precision - 0.5 for negative values, times the precision. -/
theorem claim9_round_to_quantization (x p : ℚ)
    (hp : p = 0.001 ∨ p = 0.1 ∨ p = 0.5) :
    round_to (round_to x p) p = round_to x p ∧
    (0 ≤ x → round_to x p = (⌊x / p + 0.5⌋ : ℚ) * p) ∧
    (x < 0 → round_to x p = (⌈x / p - 0.5⌉ : ℚ) * p) := by
  have hp0 : 0 < p := by
    rcases hp with h | h | h <;> rw [h] <;> norm_num
  exact ⟨round_to_idem x p hp0,
    fun hx => round_to_of_nonneg x p hx hp0,
    fun hx => round_to_of_neg x p hx hp0⟩

/-- Witness for claim C9 at value 0.3 and the kilogram precision 0.5. -/
theorem claim9_round_to_witness :
    ((0.5 : ℚ) = 0.001 ∨ (0.5 : ℚ) = 0.1 ∨ (0.5 : ℚ) = 0.5) ∧
    (round_to (round_to 0.3 0.5) 0.5 = round_to 0.3 0.5 ∧
     (0 ≤ (0.3 : ℚ) →
       round_to 0.3 0.5 = (⌊(0.3 : ℚ) / 0.5 + 0.5⌋ : ℚ) * 0.5) ∧
     ((0.3 : ℚ) < 0 →
       round_to 0.3 0.5 = (⌈(0.3 : ℚ) / 0.5 - 0.5⌉ : ℚ) * 0.5)) :=
  ⟨Or.inr (Or.inr rfl), claim9_round_to_quantization 0.3 0.5 (Or.inr (Or.inr rfl))⟩

/-- Claim C10: for unit lb the entry-assembly workflow divides the already
kilogram-denominated one_rep_max result by 2.20462 a second time before
rounding, for unit kg it does not, and at weight 1000, reps 1, unit lb the
two candidate stored values provably differ (given two-sided bounds on the
exponential primitive at the point -0.075). -/
theorem claim10_lift_double_conversion :
    (∀ (exp : ℚ → ℚ) (w r A : ℚ),
      one_rep_max exp w r "lb" = .ok A →
      storedLift exp w r "lb" = .ok (round_to (A / 2.20462) 0.5)) ∧
    (∀ (exp : ℚ → ℚ) (w r A : ℚ),
      one_rep_max exp w r "kg" = .ok A →
      storedLift exp w r "kg" = .ok (round_to A 0.5)) ∧
    (∀ exp : ℚ → ℚ, 0.9 ≤ exp (-0.075 * 1) → exp (-0.075 * 1) ≤ 1 →
      ∃ A : ℚ, one_rep_max exp 1000 1 "lb" = .ok A ∧
        storedLift exp 1000 1 "lb" = .ok (round_to (A / 2.20462) 0.5) ∧
        round_to (A / 2.20462) 0.5 ≠ round_to A 0.5) := by
  refine ⟨?_, ?_, ?_⟩
  · intro exp w r A h
    simp only [storedLift, h]
    rfl
  · intro exp w r A h
    simp only [storedLift, h]
    rfl
  · intro exp h1 h2
    exact ⟨lb_to_kg (100 * 1000 / (48.8 + 53.8 * exp (-0.075 * 1))), rfl, rfl,
      lift_gap (exp (-0.075 * 1)) h1 h2⟩

/-- Witness for claim C10 with a concrete exponential primitive bounded by
0.9 and 1 at the relevant point. -/
theorem claim10_lift_witness :
    storedLift (fun _ : ℚ => 0.95) 1000 1 "lb" =
      .ok (round_to
        (lb_to_kg (100 * 1000 / (48.8 + 53.8 * (0.95 : ℚ))) / 2.20462) 0.5) ∧
    (∃ A : ℚ, one_rep_max (fun _ : ℚ => 0.95) 1000 1 "lb" = .ok A ∧
      storedLift (fun _ : ℚ => 0.95) 1000 1 "lb" =
        .ok (round_to (A / 2.20462) 0.5) ∧
      round_to (A / 2.20462) 0.5 ≠ round_to A 0.5) :=
  ⟨claim10_lift_double_conversion.1 (fun _ => 0.95) 1000 1 _ rfl,
   claim10_lift_double_conversion.2.2 (fun _ => 0.95) (by norm_num) (by norm_num)⟩

end FitnessTracker
